import Mathlib

/-!
Verification of the chat-session state engine of the message-aggregator
backend (`backend/crud.py`, `backend/main.py`, `backend/ai_processor.py`,
`backend/cache.py`).

The Python code is shallowly embedded: the database is a pair of lists of
records (chats and messages) plus autoincrement counters, the Redis cache is
an association list from key strings to cached message lists, and each
request handler or background-task body becomes a pure function from state to
state.  Timestamps are integers (seconds).  Outbound Telegram sends are
recorded in a trace field `sent` instead of performing I/O.
-/

namespace MessageAgr

/-- Row of the `chats` table, restricted to the columns the core state
machine reads or writes (`crud.py`, class `Chat`).  The boolean columns are
nullable in the schema but every row created by `create_chat` receives the
column defaults `ai=True`, `waiting=False`,
`is_awaiting_manager_confirmation=False`, `hidden=False`, so rows reachable
through the code's own operations carry definite booleans. -/
structure ChatRec where
  id : Nat
  user_id : String
  name : String
  ai : Bool
  waiting : Bool
  is_awaiting_manager_confirmation : Bool
  hidden : Bool
  last_client_message_at : Option Int
  deriving Repr, DecidableEq

/-- Row of the `messages` table (`crud.py`, class `Message`), restricted to
the columns the claims mention.  `created_at` is a server-side default and is
modelled by the insertion order of the list (ids are assigned increasingly). -/
structure MessageRec where
  id : Nat
  chat_id : Nat
  message : String
  message_type : String
  deriving Repr, DecidableEq

/-- The dict produced per message by `crud.get_messages` (the shape stored in
the cache), without the `created_at` string. -/
structure MsgDict where
  id : Nat
  chat_id : Nat
  message : String
  message_type : String
  deriving Repr, DecidableEq

/-- The Redis cache as used by `crud.get_messages` / `crud.create_message`:
keys `messages:<chat_id>` mapping to cached message lists.  (`chats:all`
is also deleted by `create_chat`; no modelled operation stores it, so a plain
message-list value type suffices.) -/
def Cache : Type := List (String × List MsgDict)

instance : DecidableEq Cache := by unfold Cache; infer_instance

instance : Repr Cache := by unfold Cache; infer_instance

def cacheGet (c : Cache) (k : String) : Option (List MsgDict) :=
  (List.find? (fun p => p.1 = k) c).map Prod.snd

def cacheDelete (c : Cache) (k : String) : Cache :=
  List.filter (fun p => ¬ (p.1 = k)) c

def cacheSet (c : Cache) (k : String) (v : List MsgDict) : Cache :=
  (k, v) :: cacheDelete c k

/-- Whole mutable state touched by the embedded operations: the two tables,
the cache, the autoincrement counters, and the trace of Telegram text sends
(`send_message_to_telegram` calls) in the order issued. -/
structure SysState where
  chats : List ChatRec
  msgs : List MessageRec
  cache : Cache
  nextChatId : Nat
  nextMsgId : Nat
  sent : List (Int × String)
  deriving Repr, DecidableEq

def initState : SysState := ⟨[], [], [], 1, 1, []⟩

/-! ## String helpers

Python string primitives re-implemented over character lists so that every
definition evaluates inside the kernel (the core `String.splitOn` does not
reduce there). -/

/-- Split a character list at every maximal occurrence of the predicate,
keeping empty pieces (one split per matching character). -/
def splitByCl (p : Char → Bool) : List Char → List Char → List (List Char)
  | [], acc => [acc.reverse]
  | c :: rest, acc =>
    if p c then acc.reverse :: splitByCl p rest []
    else splitByCl p rest (c :: acc)

/-- Split a character list on a non-empty separator `s0 :: s1`, greedily,
left to right — the semantics of Python `str.split(sep)`.  The `fuel`
argument makes the recursion structural (each step consumes at least one
character, so `fuel = length` never runs out). -/
def splitOnCl (s0 : Char) (s1 : List Char) :
    Nat → List Char → List Char → List (List Char)
  | _, [], acc => [acc.reverse]
  | 0, l, acc => [acc.reverse ++ l]
  | fuel + 1, c :: rest, acc =>
    if c = s0 ∧ s1.isPrefixOf rest then
      acc.reverse :: splitOnCl s0 s1 fuel (rest.drop s1.length) []
    else splitOnCl s0 s1 fuel rest (c :: acc)

/-- Python `s.split(sep)` for a non-empty separator string. -/
def pySplit (s : String) (sep : String) : List String :=
  match sep.toList with
  | [] => [s]
  | s0 :: s1 => (splitOnCl s0 s1 s.toList.length s.toList []).map String.mk

/-- Python `sep in s` (substring containment), for a non-empty `sep`. -/
def pyContains (s : String) (sep : String) : Bool :=
  (pySplit s sep).length ≥ 2

/-- Python `s.endswith(t)`. -/
def pyEndsWith (s : String) (t : String) : Bool :=
  t.toList.isSuffixOf s.toList

/-- Python `sep.join(parts)`. -/
def pyJoin (sep : String) : List String → String
  | [] => ""
  | [x] => x
  | x :: y :: rest => x ++ sep ++ pyJoin sep (y :: rest)

/-- Python `str.split()` with no argument: split on whitespace runs,
dropping empty pieces.  (`Char.isWhitespace` covers the whitespace
characters that occur in Telegram display ids.) -/
def pySplitWs (s : String) : List String :=
  ((splitByCl Char.isWhitespace s.toList []).map String.mk).filter
    (fun p => p ≠ "")

/-- Python `any(ord(char) > 127 for char in part)`. -/
def hasNonAscii (s : String) : Bool :=
  s.toList.any (fun c => c.toNat > 127)

/-- Python `int(s)` on the strings this code feeds it: optional surrounding
whitespace, optional sign, decimal digits; anything else raises (`none`).
(Digit-group underscores, accepted by Python, are not modelled — the inputs
here are chat ids the code itself formatted.) -/
def digitsValAux : List Char → Nat → Option Nat
  | [], acc => some acc
  | c :: rest, acc =>
    if c.isDigit then digitsValAux rest (acc * 10 + (c.toNat - 48)) else none

def digitsVal (l : List Char) : Option Nat :=
  if l = [] then none else digitsValAux l 0

def trimCl (l : List Char) : List Char :=
  ((l.dropWhile Char.isWhitespace).reverse.dropWhile Char.isWhitespace).reverse

def pyToInt (s : String) : Option Int :=
  match trimCl s.toList with
  | '-' :: rest => (digitsVal rest).map (fun n => -(n : Int))
  | '+' :: rest => (digitsVal rest).map (fun n => (n : Int))
  | l => (digitsVal l).map (fun n => (n : Int))

/-! ## `crud.extract_display_name` -/

/-- The loop of `extract_display_name`: keep following words while they
contain a non-ASCII character, stop at the first all-ASCII word. -/
def takeEmojiParts : List String → List String
  | [] => []
  | p :: rest => if hasNonAscii p then p :: takeEmojiParts rest else []

/-- `crud.extract_display_name`: name part before `" ["`, first word plus any
directly following words holding non-ASCII characters. -/
def extract_display_name (user_id : String) : String :=
  if user_id = "" then "Unknown"
  else
    let name_part :=
      if pyContains user_id " [" then (pySplit user_id " [").headD ""
      else user_id
    match pySplitWs name_part with
    | [] => "Unknown"
    | p :: rest => pyJoin " " (p :: takeEmojiParts rest)

/-! ## CRUD operations (`crud.py`) -/

/-- `crud.get_chat_by_user_id`: matches either the `user_id` or the `name`
column (first matching row). -/
def get_chat_by_user_id (st : SysState) (uid : String) : Option ChatRec :=
  st.chats.find? (fun c => c.user_id = uid ∨ c.name = uid)

/-- Committing an updated chat row: every row with the same id takes the new
values (the session tracks the row object by primary key). -/
def saveChat (st : SysState) (c : ChatRec) : SysState :=
  { st with chats := st.chats.map (fun x => if x.id = c.id then c else x) }

/-- `crud.create_chat`: inserts a row with the column defaults `ai=True`,
`waiting=False`, `is_awaiting_manager_confirmation=False`, `hidden=False`,
`last_client_message_at=NULL`, name from `extract_display_name`, then deletes
the `chats:all` cache key.  (The generated `uuid` / `session_id` strings are
not modelled; no claim reads them.) -/
def create_chat (st : SysState) (uid : String) : SysState × ChatRec :=
  let c : ChatRec :=
    ⟨st.nextChatId, uid, extract_display_name uid, true, false, false, false, none⟩
  ({ st with chats := st.chats ++ [c],
             nextChatId := st.nextChatId + 1,
             cache := cacheDelete st.cache "chats:all" }, c)

/-- `crud.create_message`: raises `ValueError` (modelled as `.error`) when
`message_type` is neither `"question"` nor `"answer"`, before touching any
state; otherwise inserts one row with the normalised type, commits, and
deletes the cache key `messages:<chat_id>`. -/
def create_message (st : SysState) (chat_id : Nat) (message : String)
    (message_type : String) : Except String (SysState × MessageRec) :=
  if message_type ≠ "question" ∧ message_type ≠ "answer" then
    .error "invalid message_type"
  else
    let m : MessageRec :=
      ⟨st.nextMsgId, chat_id, message,
        if message_type = "answer" then "answer" else "question"⟩
    .ok ({ st with msgs := st.msgs ++ [m],
                   nextMsgId := st.nextMsgId + 1,
                   cache := cacheDelete st.cache ("messages:" ++ toString chat_id) }, m)

/-- The message dicts `crud.get_messages` builds from the database: rows of
the chat in stored order, with the type normalised to
`"answer"` / `"question"`. -/
def db_message_list (st : SysState) (chat_id : Nat) : List MsgDict :=
  (st.msgs.filter (fun m => m.chat_id = chat_id)).map
    (fun m => ⟨m.id, m.chat_id, m.message,
      if m.message_type = "answer" then "answer" else "question"⟩)

/-- `crud.get_messages`: read-through — serve the cached list when present,
else read the database and store the result under `messages:<chat_id>`. -/
def get_messages (st : SysState) (chat_id : Nat) : SysState × List MsgDict :=
  match cacheGet st.cache ("messages:" ++ toString chat_id) with
  | some v => (st, v)
  | none =>
    let v := db_message_list st chat_id
    ({ st with cache := cacheSet st.cache ("messages:" ++ toString chat_id) v }, v)

/-- `crud.update_chat_ai_status`: sets `ai` and forces `waiting` to its
negation in the same commit. -/
def update_chat_ai_status (st : SysState) (chat_id : Nat) (ai_enabled : Bool) :
    SysState :=
  match st.chats.find? (fun c => c.id = chat_id) with
  | none => st
  | some chat => saveChat st { chat with ai := ai_enabled, waiting := ¬ ai_enabled }

/-! ## Conversation state engine (`main.py`) -/

/-- The attachment kinds `process_telegram_message` distinguishes
(`photo` / `document` / `video` / `audio` keys of the message dict). -/
inductive Attachment where
  | photo
  | document (file_name : String)
  | video
  | audio
  deriving Repr, DecidableEq

/-- The placeholder body `process_telegram_message` synthesizes for a
non-text attachment, appending the caption when present. -/
def synthFileText (a : Attachment) (text : String) : String :=
  match a with
  | .photo => "📷 Photo received" ++ (if text ≠ "" then ": " ++ text else "")
  | .document file_name =>
      "📎 Document received: " ++ file_name ++
        (if text ≠ "" then "\n" ++ text else "")
  | .video => "🎥 Video received" ++ (if text ≠ "" then ": " ++ text else "")
  | .audio => "🎵 Audio received" ++ (if text ≠ "" then ": " ++ text else "")

/-- `main.process_telegram_message`: skip empty events, resolve or create the
chat for the display id, for attachments turn the AI off and synthesize a
placeholder body, persist one `question` message, stamp
`last_client_message_at`, and un-hide a hidden chat.  (The broadcasts carry
no state; the n8n forward is a separate asynchronous exchange, modelled by
`handle_n8n_response` below.) -/
def process_telegram_message (st : SysState) (uid text : String)
    (attach : Option Attachment) (now : Int) : SysState :=
  if text = "" ∧ attach = none then st
  else if uid = "" then st
  else
    let found := get_chat_by_user_id st uid
    let stc : SysState × ChatRec :=
      match found with
      | some c => (st, c)
      | none => create_chat st uid
    let stc2 : SysState × ChatRec × String :=
      match attach with
      | some a =>
        let c2 := { stc.2 with ai := false, waiting := true }
        (saveChat stc.1 c2, c2, synthFileText a text)
      | none => (stc.1, stc.2, text)
    match create_message stc2.1 stc2.2.1.id stc2.2.2 "question" with
    | .error _ => stc2.1
    | .ok (st3, _m) =>
      let c3 := { stc2.2.1 with
                  last_client_message_at := some now,
                  hidden := if stc2.2.1.hidden then false else stc2.2.1.hidden }
      saveChat st3 c3

/-- The Telegram chat-id extraction of `main.send_message` / `upload_file`:
`int(user_id.rsplit("[", 1)[1][:-1])` guarded by `" [" in user_id` and
`user_id.endswith("]")`; a parse failure is caught (`none`). -/
def extract_telegram_chat_id (uid : String) : Option Int :=
  if pyContains uid " [" ∧ pyEndsWith uid "]" then
    pyToInt (String.mk ((pySplit uid "[").getLastD "").toList.dropLast)
  else none

/-- `main.send_message` (`POST /api/chats/<chat_id>/messages`): persist the
message through `create_message` (a `ValueError` escapes as a 500 error), and
for `message_type = "answer"` — an operator-originated send — forward the
body to Telegram keyed by the id embedded in the chat's `user_id`.  The
handler never writes the chat row. -/
def send_message (st : SysState) (chat_id : Nat) (message : String)
    (message_type : String) : Except String SysState :=
  match create_message st chat_id message message_type with
  | .error e => .error e
  | .ok (st1, _m) =>
    match st1.chats.find? (fun c => c.id = chat_id) with
    | none => .ok st1
    | some chat =>
      if message_type = "answer" then
        match extract_telegram_chat_id chat.user_id with
        | some tid => .ok { st1 with sent := st1.sent ++ [(tid, message)] }
        | none => .ok st1
      else .ok st1

/-- `main.update_chat` (`PUT /api/chats/<chat_id>`): optionally set the
`is_awaiting_manager_confirmation` column, and when `ai_enabled` is given set
`ai` to it and `waiting` to its negation, in one commit. -/
def update_chat (st : SysState) (chat_id : Nat)
    (is_awaiting ai_enabled : Option Bool) : SysState :=
  match st.chats.find? (fun c => c.id = chat_id) with
  | none => st
  | some chat =>
    let c1 :=
      match is_awaiting with
      | some b => { chat with is_awaiting_manager_confirmation := b }
      | none => chat
    let c2 :=
      match ai_enabled with
      | some b => { c1 with ai := b, waiting := ¬ b }
      | none => c1
    saveChat st c2

/-- `main.hide_chat_endpoint` (`DELETE /api/chats/<chat_id>`): mark the chat
hidden; nothing else changes. -/
def hide_chat (st : SysState) (chat_id : Nat) : SysState :=
  match st.chats.find? (fun c => c.id = chat_id) with
  | none => st
  | some chat => saveChat st { chat with hidden := true }

/-- The 10 MB limit check of `upload_file` (`file.size and file.size > …`:
an absent size is falsy and passes). -/
def uploadTooLarge (size : Option Nat) : Bool :=
  match size with
  | some n => decide (n > 10 * 1024 * 1024)
  | none => false

/-- The file-description message body `upload_file` persists. -/
def uploadFileMessage (filename : String) (size : Option Nat) : String :=
  match size with
  | some n => "📎 File: " ++ filename ++ " (" ++ toString n ++ " bytes)"
  | none => "📎 File: " ++ filename

/-- `main.upload_file` (`POST /api/chats/<chat_id>/upload`): reject files
over 10 MiB, turn the AI off (`ai=False`, `waiting=True`), persist one
`answer` message describing the file.  (Saving the bytes to disk and the
Telegram document send are external I/O without conversation-state effect
and are not modelled.) -/
def upload_file (st : SysState) (chat_id : Nat) (filename : String)
    (size : Option Nat) : SysState :=
  match st.chats.find? (fun c => c.id = chat_id) with
  | none => st
  | some chat =>
    if uploadTooLarge size then st
    else
      let st1 := saveChat st { chat with ai := false, waiting := true }
      match create_message st1 chat_id (uploadFileMessage filename size) "answer" with
      | .error _ => st1
      | .ok (st2, _m) => st2

/-- `main.handle_n8n_response`: on a non-empty answer, look the chat up by
the original display id, persist the answer as an `answer` message, send it
to Telegram when the original event carried a chat id, and when the response
requests a manager handover set `ai=False`, `waiting=True`. -/
def handle_n8n_response (st : SysState) (user_id answer managerFlag : String)
    (telegram_chat_id : Option Int) : SysState :=
  let manager_handover := managerFlag = "true"
  if answer = "" then st
  else
    match get_chat_by_user_id st user_id with
    | none => st
    | some chat =>
      match create_message st chat.id answer "answer" with
      | .error _ => st
      | .ok (st1, _m) =>
        let st2 :=
          match telegram_chat_id with
          | some tid => { st1 with sent := st1.sent ++ [(tid, answer)] }
          | none => st1
        if manager_handover then
          saveChat st2 { chat with ai := false, waiting := true }
        else st2

/-! ## Reactivation timer (`main.auto_ai_reactivation_task`) -/

/-- The silence threshold: `timedelta(minutes=10)`, in seconds. -/
def silence_threshold : Int := 600

/-- One chat's treatment by a sweep of `auto_ai_reactivation_task`: chats
matching the query filter (`waiting=True`, `ai=False`, non-null
`last_client_message_at` older than ten minutes) get `ai=True`,
`waiting=False`; every other chat is untouched. -/
def reactivateChat (now : Int) (c : ChatRec) : ChatRec :=
  if c.waiting && !c.ai &&
      (match c.last_client_message_at with
       | some t => decide (t < now - silence_threshold)
       | none => false) then
    { c with ai := true, waiting := false }
  else c

/-- One sweep of the reactivation task.  The loop body mutates only the
matched chat rows and broadcasts; it sends nothing to the client (`sent`) and
creates no message rows (`msgs`). -/
def auto_ai_reactivation_sweep (st : SysState) (now : Int) : SysState :=
  { st with chats := st.chats.map (reactivateChat now) }

/-! ## Broadcast hub (`main.ConnectionManager`) -/

/-- A websocket connection as the hub observes it: an identity and whether a
`send_text` on it currently succeeds. -/
structure Connection where
  id : Nat
  healthy : Bool
  deriving Repr, DecidableEq

/-- The `ConnectionManager`'s only state: the ordered connection list. -/
structure ConnectionManagerState where
  active_connections : List Connection
  deriving Repr, DecidableEq

/-- `ConnectionManager.connect`: accept and append. -/
def cmConnect (mgr : ConnectionManagerState) (c : Connection) :
    ConnectionManagerState :=
  { mgr with active_connections := mgr.active_connections ++ [c] }

/-- `ConnectionManager.disconnect`: Python `list.remove` — drop the first
equal element. -/
def cmDisconnect (mgr : ConnectionManagerState) (c : Connection) :
    ConnectionManagerState :=
  { mgr with active_connections := mgr.active_connections.erase c }

/-- `ConnectionManager.broadcast`: try `send_text` on every connection in
order; a failing send is swallowed (`except: pass`).  Returns the manager
state after the call and the deliveries that succeeded.  The loop never
mutates `active_connections`. -/
def cmBroadcast (mgr : ConnectionManagerState) (message : String) :
    ConnectionManagerState × List (Nat × String) :=
  (mgr,
   (mgr.active_connections.filter (fun c => c.healthy)).map
     (fun c => (c.id, message)))

/-! ## JSON values and the dispatcher (`ai_processor.py`) -/

/-- JSON values, as `response.json()` yields them.  Numbers are rationals:
the literals the code handles (`0.8`, `0.0`) are exact decimals and no
arithmetic is performed on them. -/
inductive Json where
  | null
  | bool (b : Bool)
  | num (q : ℚ)
  | str (s : String)
  | arr (elems : List Json)
  | obj (fields : List (String × Json))
  deriving Repr

def Json.isObj : Json → Bool
  | .obj _ => true
  | _ => false

def Json.isStr : Json → Bool
  | .str _ => true
  | _ => false

/-- Python truthiness of a JSON value (`bool(x)`). -/
def truthy : Json → Bool
  | .null => false
  | .bool b => b
  | .num q => decide (q ≠ 0)
  | .str s => decide (s ≠ "")
  | .arr xs => !xs.isEmpty
  | .obj fs => !fs.isEmpty

/-- Python `a or b`. -/
def pyOr (a b : Json) : Json := if truthy a then a else b

/-- Python `d.get(k)`: the stored value, or `None` when the key is absent. -/
def jsonGet (fs : List (String × Json)) (k : String) : Json :=
  match fs.find? (fun p => p.1 = k) with
  | some p => p.2
  | none => .null

/-- Python `d.get(k, default)`. -/
def jsonGetD (fs : List (String × Json)) (k : String) (d : Json) : Json :=
  match fs.find? (fun p => p.1 = k) with
  | some p => p.2
  | none => d

/-- `AIProcessor.get_fallback_response`: the fixed low-confidence payload,
with the same four keys a success payload carries and `success=False`. -/
def get_fallback_response : List (String × Json) :=
  [("success", .bool false),
   ("answer", .str "I'm sorry, I'm having trouble processing your request right now. Please try again later or contact support if the issue persists."),
   ("confidence", .num 0),
   ("metadata", .obj [("fallback", .bool true), ("reason", .str "AI service unavailable")])]

/-- `AIProcessor.parse_response`.  The argument is the upstream body:
`none` models a `response.json()` that raises (unparseable body), which the
method catches, degrading to the fallback; a dict yields a success payload
with the first truthy of the `answer` / `text` / `response` fields; a bare
string yields a success payload with that string; every other shape yields
the fallback. -/
def parse_response (body : Option Json) : List (String × Json) :=
  match body with
  | none => get_fallback_response
  | some (.obj fs) =>
    [("success", .bool true),
     ("answer", pyOr (jsonGet fs "answer") (pyOr (jsonGet fs "text") (jsonGet fs "response"))),
     ("confidence", jsonGetD fs "confidence" (.num (4 / 5))),
     ("metadata", jsonGetD fs "metadata" (.obj []))]
  | some (.str s) =>
    [("success", .bool true),
     ("answer", .str s),
     ("confidence", .num (4 / 5)),
     ("metadata", .obj [])]
  | some _ => get_fallback_response

/-- The circuit state of `AIProcessor` (`failure_count`, `circuit_open`). -/
structure AIProcessorState where
  failure_count : Nat
  circuit_open : Bool
  deriving Repr, DecidableEq

/-- What the network exchange inside `process_message` would produce were it
attempted: a response body (possibly unparseable), or a failure (timeout,
connection error or bad status, after the `ResilientSession` retries are
exhausted). -/
inductive NetResult where
  | ok (body : Option Json)
  | fail
  deriving Repr

/-- The observable outcome of one `AIProcessor.process_message` call: the
successor circuit state, the returned payload, and whether the call issued
network I/O (`false` on the open-circuit short-circuit path, which returns
before any session is created). -/
structure DispatchOut where
  state : AIProcessorState
  response : List (String × Json)
  network_io : Bool
  deriving Repr

/-- `AIProcessor.process_message` with threshold `max_retries`: an open
circuit short-circuits to the fallback without I/O; a completed exchange
resets the counter and closes the circuit; a failed exchange increments the
counter and opens the circuit once it reaches the threshold. -/
def ai_process_message (max_retries : Nat) (st : AIProcessorState)
    (net : NetResult) : DispatchOut :=
  if st.circuit_open then ⟨st, get_fallback_response, false⟩
  else
    match net with
    | .ok body => ⟨⟨0, false⟩, parse_response body, true⟩
    | .fail =>
      let fc := st.failure_count + 1
      ⟨⟨fc, decide (fc ≥ max_retries)⟩, get_fallback_response, true⟩

/-- `n` consecutive `process_message` calls whose network exchange would
fail. -/
def iterFail (max_retries : Nat) : Nat → AIProcessorState → AIProcessorState
  | 0, st => st
  | n + 1, st => iterFail max_retries n (ai_process_message max_retries st .fail).state

/-! ## Ingestion loop (`main.telegram_polling_task`) -/

/-- The fields of a Telegram message the polling loop reads. -/
structure TgMessage where
  first_name : String
  username : String
  user_id_num : Int
  chat_id : Int
  text : String
  date : Int
  deriving Repr, DecidableEq

/-- One `getUpdates` entry: an id and an optional message payload. -/
structure TgUpdate where
  update_id : Nat
  message : Option TgMessage
  deriving Repr, DecidableEq

/-- The display id the loop builds: username, else first name, else the
numeric user id, suffixed with the Telegram chat id in brackets. -/
def tgDisplayId (m : TgMessage) : String :=
  (if m.username ≠ "" then m.username
   else if m.first_name ≠ "" then m.first_name
   else toString m.user_id_num) ++ " [" ++ toString m.chat_id ++ "]"

/-- One `getUpdates` call's outcome. -/
inductive FetchResult where
  | ok (updates : List TgUpdate)
  | httpError
  | exn
  deriving Repr

/-- The per-update body of the polling loop: process the message when one is
present (`process_telegram_message` catches its own errors and the loop
catches the rest), then — always — set the offset past this update's id
(`offset = update_id + 1`). -/
def pollStep (acc : SysState × Nat) (u : TgUpdate) : SysState × Nat :=
  let st1 :=
    match u.message with
    | some m => process_telegram_message acc.1 (tgDisplayId m) m.text none m.date
    | none => acc.1
  (st1, u.update_id + 1)

/-- One cycle of `telegram_polling_task`: on a successful fetch, fold
`pollStep` over the batch in order; on an HTTP error or an exception, log,
sleep and leave the offset untouched. -/
def telegram_poll_cycle (st : SysState) (offset : Nat) (fr : FetchResult) :
    SysState × Nat :=
  match fr with
  | .ok updates => updates.foldl pollStep (st, offset)
  | .httpError => (st, offset)
  | .exn => (st, offset)

/-! ## The core's operations as one step relation

Every entry point that writes conversation state, as invoked by the HTTP
layer, the ingestion loop, the n8n exchange and the reactivation timer. -/

inductive Op where
  /-- `POST /api/chats` → `crud.create_chat`. -/
  | createChat (uid : String)
  /-- An inbound Telegram event → `main.process_telegram_message`. -/
  | inbound (uid text : String) (attach : Option Attachment) (now : Int)
  /-- `PUT /api/chats/<id>` → `main.update_chat`. -/
  | updateChat (chat_id : Nat) (is_awaiting ai_enabled : Option Bool)
  /-- `crud.update_chat_ai_status`. -/
  | setAiStatus (chat_id : Nat) (ai_enabled : Bool)
  /-- `POST /api/chats/<id>/upload` → `main.upload_file`. -/
  | uploadFile (chat_id : Nat) (filename : String) (size : Option Nat)
  /-- The n8n webhook's answer → `main.handle_n8n_response`. -/
  | n8n (user_id answer managerFlag : String) (telegram_chat_id : Option Int)
  /-- One sweep of `main.auto_ai_reactivation_task`. -/
  | reactivate (now : Int)
  /-- `POST /api/chats/<id>/messages` → `main.send_message`. -/
  | operatorSend (chat_id : Nat) (message message_type : String)
  /-- `DELETE /api/chats/<id>` → `main.hide_chat_endpoint`. -/
  | hide (chat_id : Nat)

def step (st : SysState) : Op → SysState
  | .createChat uid => (create_chat st uid).1
  | .inbound uid text attach now => process_telegram_message st uid text attach now
  | .updateChat chat_id aw ai => update_chat st chat_id aw ai
  | .setAiStatus chat_id ai => update_chat_ai_status st chat_id ai
  | .uploadFile chat_id filename size => upload_file st chat_id filename size
  | .n8n user_id answer managerFlag tid =>
      handle_n8n_response st user_id answer managerFlag tid
  | .reactivate now => auto_ai_reactivation_sweep st now
  | .operatorSend chat_id message message_type =>
      match send_message st chat_id message message_type with
      | .ok st1 => st1
      | .error _ => st
  | .hide chat_id => hide_chat st chat_id

/-- Running a sequence of operations from the empty initial state. -/
def run (ops : List Op) : SysState := ops.foldl step initState

/-- The claimed invariant: a chat is never simultaneously awaiting a manager
and AI-handled. -/
def chatOk (c : ChatRec) : Prop := ¬ (c.waiting = true ∧ c.ai = true)

def stateOk (st : SysState) : Prop := ∀ c ∈ st.chats, chatOk c

/-! ## Concrete states used to exercise the theorems -/

/-- A conversation with the AI live (`ai=true`, `waiting=false`), as it
stands when an operator replies. -/
def chatAiOn : ChatRec := ⟨1, "alice [5]", "alice", true, false, false, false, none⟩

/-- A store holding only `chatAiOn`. -/
def stAiOn : SysState := ⟨[chatAiOn], [], [], 2, 1, []⟩

/-- A hub with one failing and one healthy observer. -/
def hubMixed : ConnectionManagerState := ⟨[⟨1, false⟩, ⟨2, true⟩]⟩

/-- A conversation awaiting a manager whose last client message is stale. -/
def chatStale : ChatRec := ⟨1, "alice [5]", "alice", false, true, false, false, some 0⟩

/-- A store holding only `chatStale`. -/
def stStale : SysState := ⟨[chatStale], [], [], 2, 1, []⟩

/-- A store whose cache holds a stale entry for chat 1's message list. -/
def stStaleCache : SysState := ⟨[], [], [("messages:1", [⟨9, 1, "old", "question"⟩])], 1, 1, []⟩

/-! ## Helper lemmas -/

theorem mem_saveChat {st : SysState} {c d : ChatRec}
    (h : d ∈ (saveChat st c).chats) : d = c ∨ d ∈ st.chats := by
  simp only [saveChat, List.mem_map] at h
  obtain ⟨x, hx, hfx⟩ := h
  by_cases hid : x.id = c.id
  · simp only [hid, if_true] at hfx
    exact Or.inl hfx.symm
  · simp only [hid, if_false] at hfx
    exact Or.inr (hfx ▸ hx)

theorem create_message_ok_chats {st st' : SysState} {chat_id : Nat}
    {msg t : String} {m : MessageRec}
    (h : create_message st chat_id msg t = .ok (st', m)) :
    st'.chats = st.chats := by
  unfold create_message at h
  split at h
  · exact absurd h (by simp)
  · injection h with h1
    injection h1 with h2 h3
    rw [← h2]

theorem send_message_ok_chats {st st' : SysState} {chat_id : Nat}
    {msg t : String}
    (h : send_message st chat_id msg t = .ok st') :
    st'.chats = st.chats := by
  unfold send_message at h
  rcases hcm : create_message st chat_id msg t with e | ⟨st1, m⟩ <;> rw [hcm] at h
  · exact Except.noConfusion h
  · have h1 : st1.chats = st.chats := create_message_ok_chats hcm
    dsimp only at h
    split at h
    · injection h with h2; rw [← h2]; exact h1
    · split at h
      · split at h
        · injection h with h2; rw [← h2]; exact h1
        · injection h with h2; rw [← h2]; exact h1
      · injection h with h2; rw [← h2]; exact h1

/-! ## Per-operation invariant preservation -/

theorem chatOk_of_not_waiting {c : ChatRec} (h : c.waiting = false) : chatOk c := by
  intro hh; rw [h] at hh; exact Bool.false_ne_true hh.1

theorem chatOk_of_not_ai {c : ChatRec} (h : c.ai = false) : chatOk c := by
  intro hh; rw [h] at hh; exact Bool.false_ne_true hh.2

theorem stateOk_create_chat {st : SysState} {uid : String} (h : stateOk st) :
    stateOk (create_chat st uid).1 := by
  intro c hc
  simp only [create_chat, List.mem_append, List.mem_singleton] at hc
  rcases hc with hc | hc
  · exact h c hc
  · subst hc; exact chatOk_of_not_waiting rfl

theorem stateOk_process_telegram_message {st : SysState} {uid text : String}
    {attach : Option Attachment} {now : Int} (h : stateOk st) :
    stateOk (process_telegram_message st uid text attach now) := by
  unfold process_telegram_message
  split
  · exact h
  split
  · exact h
  rcases hfound : get_chat_by_user_id st uid with _ | c0
  all_goals simp only [hfound]
  case _ =>
    -- chat not found: create it; the created chat has waiting = false,
    -- the file branch forces waiting = true but ai = false
    rcases attach with _ | a
    all_goals simp only []
    · -- text message for the fresh chat
      rcases hcm : create_message (create_chat st uid).1
          (create_chat st uid).2.id text "question" with e | ⟨st3, m⟩
      all_goals simp only [hcm]
      · exact stateOk_create_chat h
      · intro d hd
        rcases mem_saveChat hd with hd | hd
        · subst hd; exact chatOk_of_not_waiting rfl
        · rw [create_message_ok_chats hcm] at hd
          exact stateOk_create_chat h d hd
    · -- attachment for the fresh chat: ai forced off
      rcases hcm : create_message
          (saveChat (create_chat st uid).1
            { (create_chat st uid).2 with ai := false, waiting := true })
          (create_chat st uid).2.id (synthFileText a text) "question" with e | ⟨st3, m⟩
      all_goals simp only [hcm]
      · intro d hd
        rcases mem_saveChat hd with hd | hd
        · subst hd; exact chatOk_of_not_ai rfl
        · exact stateOk_create_chat h d hd
      · intro d hd
        rcases mem_saveChat hd with hd | hd
        · subst hd; exact chatOk_of_not_ai rfl
        · rw [create_message_ok_chats hcm] at hd
          rcases mem_saveChat hd with hd | hd
          · subst hd; exact chatOk_of_not_ai rfl
          · exact stateOk_create_chat h d hd
  case _ =>
    -- chat found
    have hc0 : c0 ∈ st.chats :=
      List.mem_of_find?_eq_some hfound
    rcases attach with _ | a
    all_goals simp only []
    · rcases hcm : create_message st c0.id text "question" with e | ⟨st3, m⟩
      all_goals simp only [hcm]
      · exact h
      · intro d hd
        rcases mem_saveChat hd with hd | hd
        · subst hd
          intro hh
          exact h c0 hc0 hh
        · rw [create_message_ok_chats hcm] at hd
          exact h d hd
    · rcases hcm : create_message (saveChat st { c0 with ai := false, waiting := true })
          c0.id (synthFileText a text) "question" with e | ⟨st3, m⟩
      all_goals simp only [hcm]
      · intro d hd
        rcases mem_saveChat hd with hd | hd
        · subst hd; exact chatOk_of_not_ai rfl
        · exact h d hd
      · intro d hd
        rcases mem_saveChat hd with hd | hd
        · subst hd; exact chatOk_of_not_ai rfl
        · rw [create_message_ok_chats hcm] at hd
          rcases mem_saveChat hd with hd | hd
          · subst hd; exact chatOk_of_not_ai rfl
          · exact h d hd

theorem stateOk_update_chat {st : SysState} {chat_id : Nat}
    {aw ai : Option Bool} (h : stateOk st) :
    stateOk (update_chat st chat_id aw ai) := by
  unfold update_chat
  rcases hfind : st.chats.find? (fun c => c.id = chat_id) with _ | chat <;>
    simp only [hfind]
  · exact h
  · have hc : chat ∈ st.chats := List.mem_of_find?_eq_some hfind
    rcases aw with _ | b <;> rcases ai with _ | b2 <;> dsimp only <;>
      intro d hd <;> rcases mem_saveChat hd with hd | hd
    · subst hd; exact h _ hc
    · exact h d hd
    · subst hd
      rcases b2 with _ | _
      · exact chatOk_of_not_ai rfl
      · exact chatOk_of_not_waiting (by simp)
    · exact h d hd
    · subst hd; intro hh; exact h _ hc hh
    · exact h d hd
    · subst hd
      rcases b2 with _ | _
      · exact chatOk_of_not_ai rfl
      · exact chatOk_of_not_waiting (by simp)
    · exact h d hd

theorem stateOk_update_chat_ai_status {st : SysState} {chat_id : Nat}
    {ai : Bool} (h : stateOk st) :
    stateOk (update_chat_ai_status st chat_id ai) := by
  unfold update_chat_ai_status
  rcases hfind : st.chats.find? (fun c => c.id = chat_id) with _ | chat <;>
    simp only [hfind]
  · exact h
  · intro d hd
    rcases mem_saveChat hd with hd | hd
    · subst hd
      rcases ai with _ | _
      · exact chatOk_of_not_ai rfl
      · exact chatOk_of_not_waiting (by simp)
    · exact h d hd

theorem stateOk_upload_file {st : SysState} {chat_id : Nat}
    {filename : String} {size : Option Nat} (h : stateOk st) :
    stateOk (upload_file st chat_id filename size) := by
  unfold upload_file
  rcases hfind : st.chats.find? (fun c => c.id = chat_id) with _ | chat <;>
    simp only [hfind]
  · exact h
  · split
    · exact h
    · rcases hcm : create_message (saveChat st { chat with ai := false, waiting := true })
          chat_id (uploadFileMessage filename size) "answer" with e | ⟨st2, m⟩ <;>
        simp only [hcm]
      · intro d hd
        rcases mem_saveChat hd with hd | hd
        · subst hd; exact chatOk_of_not_ai rfl
        · exact h d hd
      · intro d hd
        rw [create_message_ok_chats hcm] at hd
        rcases mem_saveChat hd with hd | hd
        · subst hd; exact chatOk_of_not_ai rfl
        · exact h d hd

theorem stateOk_handle_n8n_response {st : SysState}
    {user_id answer managerFlag : String} {tid : Option Int} (h : stateOk st) :
    stateOk (handle_n8n_response st user_id answer managerFlag tid) := by
  unfold handle_n8n_response
  dsimp only
  split
  · exact h
  rcases hfound : get_chat_by_user_id st user_id with _ | chat <;>
    simp only [hfound]
  · exact h
  · rcases hcm : create_message st chat.id answer "answer" with e | ⟨st1, m⟩ <;>
      simp only [hcm]
    · exact h
    · have h1 : st1.chats = st.chats := create_message_ok_chats hcm
      have hc : chat ∈ st.chats := List.mem_of_find?_eq_some hfound
      rcases tid with _ | t <;> dsimp only <;> split <;> intro d hd
      · rcases mem_saveChat hd with hd | hd
        · subst hd; exact chatOk_of_not_ai rfl
        · rw [h1] at hd; exact h d hd
      · rw [h1] at hd; exact h d hd
      · rcases mem_saveChat hd with hd | hd
        · subst hd; exact chatOk_of_not_ai rfl
        · have hd2 : d ∈ st1.chats := hd
          rw [h1] at hd2; exact h d hd2
      · have hd2 : d ∈ st1.chats := hd
        rw [h1] at hd2; exact h d hd2

theorem stateOk_reactivation_sweep {st : SysState} {now : Int} (h : stateOk st) :
    stateOk (auto_ai_reactivation_sweep st now) := by
  intro d hd
  simp only [auto_ai_reactivation_sweep, List.mem_map] at hd
  obtain ⟨c, hc, hcd⟩ := hd
  subst hcd
  unfold reactivateChat
  split
  · exact chatOk_of_not_waiting rfl
  · exact h c hc

theorem stateOk_hide_chat {st : SysState} {chat_id : Nat} (h : stateOk st) :
    stateOk (hide_chat st chat_id) := by
  unfold hide_chat
  rcases hfind : st.chats.find? (fun c => c.id = chat_id) with _ | chat <;>
    simp only [hfind]
  · exact h
  · have hc : chat ∈ st.chats := List.mem_of_find?_eq_some hfind
    intro d hd
    rcases mem_saveChat hd with hd | hd
    · subst hd; intro hh; exact h chat hc hh
    · exact h d hd

theorem stateOk_step {st : SysState} (op : Op) (h : stateOk st) :
    stateOk (step st op) := by
  rcases op with uid | ⟨uid, text, attach, now⟩ | ⟨cid, aw, ai⟩ | ⟨cid, ai⟩ |
    ⟨cid, fn, sz⟩ | ⟨u, a, mf, tid⟩ | now | ⟨cid, msg, mt⟩ | cid
  · exact stateOk_create_chat h
  · exact stateOk_process_telegram_message h
  · exact stateOk_update_chat h
  · exact stateOk_update_chat_ai_status h
  · exact stateOk_upload_file h
  · exact stateOk_handle_n8n_response h
  · exact stateOk_reactivation_sweep h
  · show stateOk (match send_message st cid msg mt with
      | .ok st1 => st1 | .error _ => st)
    rcases hsm : send_message st cid msg mt with e | st1
    · exact h
    · intro d hd
      rw [send_message_ok_chats hsm] at hd
      exact h d hd
  · exact stateOk_hide_chat h

/-! ## The claims -/

/-- Claim C2: for every conversation reachable by any sequence of the core's
operations (chat creation, inbound processing, chat update, file upload, n8n
handover, auto-reactivation — plus operator sends and hides), the columns
`waiting` and `ai` are never both true. -/
theorem waiting_and_ai_never_both_true (ops : List Op) :
    ∀ c ∈ (run ops).chats, ¬ (c.waiting = true ∧ c.ai = true) := by
  have key : ∀ (l : List Op) (st : SysState), stateOk st → stateOk (l.foldl step st) := by
    intro l
    induction l with
    | nil => exact fun st hst => hst
    | cons op rest ih => exact fun st hst => ih (step st op) (stateOk_step op hst)
  exact key ops initState (by intro c hc; exact absurd hc (List.not_mem_nil c))

/-- Witness for C2: the conversation created by a first contact satisfies the
invariant (`waiting=false`, `ai=true`). -/
theorem waiting_and_ai_never_both_true_witness :
    ¬ ((⟨1, "alice [1]", "alice", true, false, false, false, none⟩ : ChatRec).waiting = true ∧
       (⟨1, "alice [1]", "alice", true, false, false, false, none⟩ : ChatRec).ai = true) :=
  waiting_and_ai_never_both_true [Op.createChat "alice [1]"] _ (by decide)

/-- Claim C1, counterexample: an operator-originated send
(`POST /api/chats/1/messages` with `message_type="answer"`) completes
successfully on a conversation whose `ai` column is true, and the column is
still true afterwards — the handler never forces `ai=false`. -/
theorem operator_send_leaves_ai_on :
    (match send_message stAiOn 1 "hi" "answer" with
     | .ok st => st.chats.map ChatRec.ai
     | .error _ => []) = [true] := by decide

/-- Claim C1 (amended): after an operator-originated send completes, the
conversation rows — in particular the `ai` column — are exactly as before
the call: the handler persists the message, broadcasts and forwards to
Telegram, but never writes the chat row. -/
theorem operator_send_preserves_conversations (st st' : SysState)
    (chat_id : Nat) (msg t : String)
    (h : send_message st chat_id msg t = .ok st') :
    st'.chats = st.chats :=
  send_message_ok_chats h

/-- Witness for the amended C1 at a concrete operator send. -/
theorem operator_send_preserves_conversations_witness :
    SysState.chats ⟨[chatAiOn], [⟨1, 1, "hi", "answer"⟩], [], 2, 2, [(5, "hi")]⟩ =
      stAiOn.chats :=
  operator_send_preserves_conversations stAiOn
    ⟨[chatAiOn], [⟨1, 1, "hi", "answer"⟩], [], 2, 2, [(5, "hi")]⟩
    1 "hi" "answer" rfl

/-- Claim C5, counterexample: broadcasting to a hub with one failing (id 1)
and one healthy (id 2) observer delivers to the healthy one, but the failing
handle is NOT removed from the connection set by the call — the loop
swallows the failure (`except: pass`) and leaves `active_connections`
untouched, so the failing observer is attempted again by every subsequent
broadcast. -/
theorem broadcast_keeps_failing_connection :
    (cmBroadcast hubMixed "ev").2 = [(2, "ev")] ∧
    (cmBroadcast hubMixed "ev").1 = hubMixed := by decide

/-- Claim C5 (amended): `broadcast` delivers to every observer whose send
succeeds and swallows per-connection failures; the connection set after the
call is unchanged (membership shrinks only through an explicit
`disconnect`). -/
theorem broadcast_delivers_healthy_keeps_membership
    (mgr : ConnectionManagerState) (msg : String) (c : Connection)
    (hc : c ∈ mgr.active_connections) :
    (c.healthy = true → (c.id, msg) ∈ (cmBroadcast mgr msg).2) ∧
    c ∈ (cmBroadcast mgr msg).1.active_connections := by
  constructor
  · intro hh
    simp only [cmBroadcast, List.mem_map, List.mem_filter]
    exact ⟨c, ⟨hc, hh⟩, rfl⟩
  · exact hc

/-- Witness for the amended C5: the healthy observer of `hubMixed` receives
the event and stays connected. -/
theorem broadcast_delivers_healthy_keeps_membership_witness :
    ((true : Bool) = true → ((2 : Nat), "ev") ∈ (cmBroadcast hubMixed "ev").2) ∧
    (⟨2, true⟩ : Connection) ∈ (cmBroadcast hubMixed "ev").1.active_connections :=
  broadcast_delivers_healthy_keeps_membership hubMixed "ev" ⟨2, true⟩ (by decide)

/-- Claim C4, counterexample: the polling loop advances the cursor past an
update even when no Message was persisted for it — here a batch holding one
update (id 41) without a message payload: the cycle ends with offset 42 and
an empty message table, refuting "advances … only after that event has been
processed into a persisted Message". -/
theorem cursor_advances_without_persisted_message :
    (telegram_poll_cycle initState 7 (.ok [⟨41, none⟩])).2 = 42 ∧
    (telegram_poll_cycle initState 7 (.ok [⟨41, none⟩])).1.msgs = [] := by decide

/-- Claim C4 (amended): the cursor advances per event — after the processing
attempt of each fetched update, the offset is set past that update's id,
whether or not a Message was persisted (a batch splits into its prefix and
the rest, and a one-update batch ends at `update_id + 1`); when the upstream
fetch fails (HTTP error or exception) the cycle leaves the cursor
unadvanced, so the next cycle retries the same events. -/
theorem cursor_advances_per_event (st : SysState) (offset : Nat)
    (xs ys : List TgUpdate) (u : TgUpdate) :
    telegram_poll_cycle st offset (.ok (xs ++ ys)) =
      telegram_poll_cycle (telegram_poll_cycle st offset (.ok xs)).1
        (telegram_poll_cycle st offset (.ok xs)).2 (.ok ys) ∧
    (telegram_poll_cycle st offset (.ok [u])).2 = u.update_id + 1 ∧
    telegram_poll_cycle st offset .httpError = (st, offset) ∧
    telegram_poll_cycle st offset .exn = (st, offset) := by
  refine ⟨?_, rfl, rfl, rfl⟩
  simp only [telegram_poll_cycle, List.foldl_append]

/-! Circuit-breaker lemmas for C3. -/

theorem ai_process_message_open {K : Nat} {stc : AIProcessorState}
    (h : stc.circuit_open = true) (net : NetResult) :
    ai_process_message K stc net = ⟨stc, get_fallback_response, false⟩ := by
  unfold ai_process_message
  rw [h]
  rfl

theorem iterFail_open {K : Nat} (n : Nat) {stc : AIProcessorState}
    (h : stc.circuit_open = true) : iterFail K n stc = stc := by
  induction n with
  | zero => rfl
  | succ k ih =>
    show iterFail K k (ai_process_message K stc .fail).state = stc
    rw [ai_process_message_open h .fail]
    exact ih

theorem iterFail_closed_track (K : Nat) :
    ∀ (n : Nat) (stc : AIProcessorState), stc.circuit_open = false →
      (iterFail K n stc).circuit_open = true ∨
        (iterFail K n stc = ⟨stc.failure_count + n, false⟩ ∧
          (n = 0 ∨ stc.failure_count + n < K)) := by
  intro n
  induction n with
  | zero =>
    intro stc h
    right
    refine ⟨?_, Or.inl rfl⟩
    cases stc with
    | mk fc op =>
      simp only at h
      rw [h]
      show (⟨fc, false⟩ : AIProcessorState) = _
      simp
  | succ k ih =>
    intro stc h
    show (iterFail K k (ai_process_message K stc .fail).state).circuit_open = true ∨
      (iterFail K k (ai_process_message K stc .fail).state =
          ⟨stc.failure_count + (k + 1), false⟩ ∧
        (k + 1 = 0 ∨ stc.failure_count + (k + 1) < K))
    have hstep : (ai_process_message K stc .fail).state =
        ⟨stc.failure_count + 1, decide (stc.failure_count + 1 ≥ K)⟩ := by
      unfold ai_process_message
      rw [h]
      rfl
    rw [hstep]
    by_cases hth : stc.failure_count + 1 ≥ K
    · left
      rw [iterFail_open k (by simp [hth])]
      simp [hth]
    · have h1 : (⟨stc.failure_count + 1, decide (stc.failure_count + 1 ≥ K)⟩ :
          AIProcessorState).circuit_open = false := by simp [hth]
      rcases ih ⟨stc.failure_count + 1, decide (stc.failure_count + 1 ≥ K)⟩ h1 with hopen | ⟨heq, hlt⟩
      · exact Or.inl hopen
      · right
        constructor
        · rw [heq]
          have harith : stc.failure_count + 1 + k = stc.failure_count + (k + 1) := by omega
          simp only [harith]
        · right
          simp only at hlt
          rcases hlt with h0 | hl
          · subst h0
            have := Nat.lt_of_not_ge hth
            omega
          · omega

/-- Claim C3: with threshold `K = max_retries`, starting from any closed
circuit, `K` consecutive dispatch calls whose network exchange fails leave
the circuit open; the next call on the open circuit returns the fallback
payload without issuing network I/O and without touching the state; and any
call whose exchange completes resets the failure counter to 0 and closes the
circuit. -/
theorem circuit_breaker_opens_and_resets (K c0 : Nat) (net : NetResult)
    (stc : AIProcessorState) (body : Option Json)
    (hK : 0 < K) (hstc : stc.circuit_open = false) :
    (iterFail K K ⟨c0, false⟩).circuit_open = true ∧
    ai_process_message K (iterFail K K ⟨c0, false⟩) net =
      ⟨iterFail K K ⟨c0, false⟩, get_fallback_response, false⟩ ∧
    (ai_process_message K stc (.ok body)).state = ⟨0, false⟩ := by
  have hopen : (iterFail K K ⟨c0, false⟩).circuit_open = true := by
    rcases iterFail_closed_track K K ⟨c0, false⟩ rfl with h | ⟨_, hlt⟩
    · exact h
    · rcases hlt with h0 | hl
      · exact absurd h0 (Nat.pos_iff_ne_zero.mp hK)
      · exact absurd hl (by simp)
  refine ⟨hopen, ai_process_message_open hopen net, ?_⟩
  unfold ai_process_message
  rw [hstc]
  rfl

/-- Witness for C3 at the spec's own scenario: threshold 3, three
consecutive failures, then a short-circuited call; and a reset from a
closed state with two accumulated failures. -/
theorem circuit_breaker_opens_and_resets_witness :
    (iterFail 3 3 ⟨0, false⟩).circuit_open = true ∧
    ai_process_message 3 (iterFail 3 3 ⟨0, false⟩) .fail =
      ⟨iterFail 3 3 ⟨0, false⟩, get_fallback_response, false⟩ ∧
    (ai_process_message 3 ⟨2, false⟩ (.ok none)).state = ⟨0, false⟩ :=
  circuit_breaker_opens_and_resets 3 0 .fail ⟨2, false⟩ none (by decide) rfl

/-- Claim C6: a conversation with `waiting=true`, `ai=false` and a non-null
`last_client_message_at` older than the ten-minute silence threshold at
sweep time (a newer inbound message would have moved the timestamp inside
the threshold, so the filter excludes it — inbound wins) is reactivated by
one sweep: `waiting=false`, `ai=true`; and the sweep sends nothing to the
client and creates no message rows. -/
theorem reactivation_sweep_restores_ai (st : SysState) (now t : Int)
    (c : ChatRec) (hc : c ∈ st.chats) (hw : c.waiting = true)
    (ha : c.ai = false) (hl : c.last_client_message_at = some t)
    (ht : t < now - silence_threshold) :
    (reactivateChat now c).waiting = false ∧
    (reactivateChat now c).ai = true ∧
    reactivateChat now c ∈ (auto_ai_reactivation_sweep st now).chats ∧
    (auto_ai_reactivation_sweep st now).sent = st.sent ∧
    (auto_ai_reactivation_sweep st now).msgs = st.msgs := by
  have hcond : (c.waiting && !c.ai &&
      (match c.last_client_message_at with
       | some t2 => decide (t2 < now - silence_threshold)
       | none => false)) = true := by
    rw [hw, ha, hl]
    simpa using ht
  refine ⟨?_, ?_, ?_, rfl, rfl⟩
  · unfold reactivateChat
    rw [if_pos hcond]
  · unfold reactivateChat
    rw [if_pos hcond]
  · simp only [auto_ai_reactivation_sweep]
    exact List.mem_map_of_mem (reactivateChat now) hc

/-- Witness for C6: `chatStale` (silent since t=0) is reactivated by a sweep
at t=1000 with nothing sent. -/
theorem reactivation_sweep_restores_ai_witness :
    (reactivateChat 1000 chatStale).waiting = false ∧
    (reactivateChat 1000 chatStale).ai = true ∧
    reactivateChat 1000 chatStale ∈ (auto_ai_reactivation_sweep stStale 1000).chats ∧
    (auto_ai_reactivation_sweep stStale 1000).sent = stStale.sent ∧
    (auto_ai_reactivation_sweep stStale 1000).msgs = stStale.msgs :=
  reactivation_sweep_restores_ai stStale 1000 0 chatStale (by decide) rfl rfl rfl
    (by decide)

/-! Cache lemma for C9. -/

theorem cacheGet_cacheDelete (c : Cache) (k : String) :
    cacheGet (cacheDelete c k) k = none := by
  unfold cacheGet cacheDelete
  have hfind : List.find? (fun p => p.1 = k)
      (List.filter (fun p => ¬ (p.1 = k)) c) = none := by
    rw [List.find?_eq_none]
    intro p hp
    rw [List.mem_filter] at hp
    simpa using hp.2
  rw [hfind]
  rfl

/-- Claim C9: whenever `create_message` commits a message for a chat, the
cache entry for that chat's message list (key `messages:<chat_id>`) has been
deleted by the time the call returns, so a subsequent `get_messages` read
misses the cache and rebuilds the list from the database rows. -/
theorem create_message_invalidates_cache (st st' : SysState) (chat_id : Nat)
    (msg t : String) (m : MessageRec)
    (h : create_message st chat_id msg t = .ok (st', m)) :
    cacheGet st'.cache ("messages:" ++ toString chat_id) = none ∧
    (get_messages st' chat_id).2 = db_message_list st' chat_id := by
  have hcache : st'.cache = cacheDelete st.cache ("messages:" ++ toString chat_id) := by
    unfold create_message at h
    split at h
    · exact Except.noConfusion h
    · injection h with h1
      injection h1 with h2 h3
      rw [← h2]
  have hget : cacheGet st'.cache ("messages:" ++ toString chat_id) = none := by
    rw [hcache]
    exact cacheGet_cacheDelete _ _
  refine ⟨hget, ?_⟩
  unfold get_messages
  rw [hget]

/-- Witness for C9: committing a message for chat 1 on a store with a stale
cached list leaves the key absent and the read serving the database rows. -/
theorem create_message_invalidates_cache_witness :
    cacheGet (SysState.cache ⟨[], [⟨1, 1, "hi", "answer"⟩], [], 1, 2, []⟩)
        ("messages:" ++ toString 1) = none ∧
    (get_messages ⟨[], [⟨1, 1, "hi", "answer"⟩], [], 1, 2, []⟩ 1).2 =
      db_message_list ⟨[], [⟨1, 1, "hi", "answer"⟩], [], 1, 2, []⟩ 1 :=
  create_message_invalidates_cache stStaleCache
    ⟨[], [⟨1, 1, "hi", "answer"⟩], [], 1, 2, []⟩ 1 "hi" "answer"
    ⟨1, 1, "hi", "answer"⟩ rfl

/-- Claim C10: `create_message` with a `message_type` outside
`question`/`answer` raises `ValueError` before persisting anything — the
error carries no successor state, so the caller's state is untouched (no
message row, no cache invalidation); with a valid type it persists exactly
one message whose stored `message_type` equals the given one (the
normalisation is the identity on the valid set) and deletes only the cache
key of that chat. -/
theorem create_message_validates_type (st : SysState) (chat_id : Nat)
    (msg t : String) :
    (t ≠ "question" → t ≠ "answer" →
      create_message st chat_id msg t = .error "invalid message_type") ∧
    (t = "question" ∨ t = "answer" →
      create_message st chat_id msg t =
        .ok ({ st with
               msgs := st.msgs ++ [⟨st.nextMsgId, chat_id, msg, t⟩],
               nextMsgId := st.nextMsgId + 1,
               cache := cacheDelete st.cache ("messages:" ++ toString chat_id) },
             ⟨st.nextMsgId, chat_id, msg, t⟩)) := by
  constructor
  · intro h1 h2
    unfold create_message
    rw [if_pos ⟨h1, h2⟩]
  · intro ht
    unfold create_message
    rcases ht with ht | ht <;> subst ht
    · rw [if_neg (by intro hh; exact hh.1 rfl)]
      rfl
    · rw [if_neg (by intro hh; exact hh.2 rfl)]
      rfl

/-- Witness for C10: a rejected type `edited` and an accepted type
`answer`, both on the empty store. -/
theorem create_message_validates_type_witness :
    create_message initState 1 "hi" "edited" = .error "invalid message_type" ∧
    create_message initState 1 "hi" "answer" =
      .ok ({ initState with
             msgs := initState.msgs ++ [⟨initState.nextMsgId, 1, "hi", "answer"⟩],
             nextMsgId := initState.nextMsgId + 1,
             cache := cacheDelete initState.cache ("messages:" ++ toString 1) },
           ⟨initState.nextMsgId, 1, "hi", "answer"⟩) :=
  ⟨(create_message_validates_type initState 1 "hi" "edited").1 (by decide) (by decide),
   (create_message_validates_type initState 1 "hi" "answer").2 (Or.inr rfl)⟩

/-- Claim C8: `parse_response` is a total function of the upstream body — no
body shape escapes it as an exception.  Every result carries exactly the
four keys `success`, `answer`, `confidence`, `metadata`, so the fallback is
structurally identical to a success payload; a dict body yields a success
result whose answer is the first truthy of its `answer` / `text` /
`response` fields; a bare string body yields a success result with that
string; every other or unparseable body yields the fallback, whose
`success` field is false. -/
theorem parse_response_total_and_shaped (body : Option Json)
    (fs : List (String × Json)) (s : String) (j : Json)
    (hobj : j.isObj = false) (hstr : j.isStr = false) :
    (parse_response body).map Prod.fst =
      ["success", "answer", "confidence", "metadata"] ∧
    parse_response (some (.obj fs)) =
      [("success", .bool true),
       ("answer", pyOr (jsonGet fs "answer")
          (pyOr (jsonGet fs "text") (jsonGet fs "response"))),
       ("confidence", jsonGetD fs "confidence" (.num (4 / 5))),
       ("metadata", jsonGetD fs "metadata" (.obj []))] ∧
    parse_response (some (.str s)) =
      [("success", .bool true), ("answer", .str s),
       ("confidence", .num (4 / 5)), ("metadata", .obj [])] ∧
    parse_response (some j) = get_fallback_response ∧
    parse_response none = get_fallback_response ∧
    jsonGet get_fallback_response "success" = .bool false := by
  refine ⟨?_, rfl, rfl, ?_, rfl, rfl⟩
  · rcases body with _ | j2
    · rfl
    · cases j2 <;> rfl
  · cases j
    · rfl
    · rfl
    · rfl
    · exact absurd hstr (by simp [Json.isStr])
    · rfl
    · exact absurd hobj (by simp [Json.isObj])

/-- Witness for C8: a dict body with only a `text` field, a bare string
body, and a numeric body (neither dict nor string). -/
theorem parse_response_total_and_shaped_witness :
    (parse_response (some (.obj [("text", .str "hi")]))).map Prod.fst =
      ["success", "answer", "confidence", "metadata"] ∧
    parse_response (some (.obj [("text", .str "hi")])) =
      [("success", .bool true),
       ("answer", pyOr (jsonGet [("text", .str "hi")] "answer")
          (pyOr (jsonGet [("text", .str "hi")] "text")
            (jsonGet [("text", .str "hi")] "response"))),
       ("confidence", jsonGetD [("text", .str "hi")] "confidence" (.num (4 / 5))),
       ("metadata", jsonGetD [("text", .str "hi")] "metadata" (.obj []))] ∧
    parse_response (some (.str "plain")) =
      [("success", .bool true), ("answer", .str "plain"),
       ("confidence", .num (4 / 5)), ("metadata", .obj [])] ∧
    parse_response (some (.num 7)) = get_fallback_response ∧
    parse_response none = get_fallback_response ∧
    jsonGet get_fallback_response "success" = .bool false :=
  parse_response_total_and_shaped (some (.obj [("text", .str "hi")]))
    [("text", .str "hi")] "plain" (.num 7) rfl rfl

/-! Helper lemmas for C7. -/

theorem create_message_question_eq (st : SysState) (chat_id : Nat) (msg : String) :
    create_message st chat_id msg "question" =
      .ok ({ st with
             msgs := st.msgs ++ [⟨st.nextMsgId, chat_id, msg, "question"⟩],
             nextMsgId := st.nextMsgId + 1,
             cache := cacheDelete st.cache ("messages:" ++ toString chat_id) },
           ⟨st.nextMsgId, chat_id, msg, "question"⟩) := by
  unfold create_message
  rw [if_neg (by intro hh; exact hh.1 rfl)]
  rfl

theorem list_map_id_of {α : Type} (l : List α) (f : α → α)
    (h : ∀ x ∈ l, f x = x) : l.map f = l := by
  induction l with
  | nil => rfl
  | cons a rest ih =>
    simp only [List.map_cons]
    rw [h a (by simp), ih (fun x hx => h x (by simp [hx]))]

/-- Claim C7: an inbound text message from a previously-unseen external
identifier (no chat row matches it by `user_id` or `name`) creates exactly
one new conversation with `ai=true`, `waiting=false`, `hidden=false`, and
persists exactly one `question` message whose body is the inbound text; and
whenever the resolved conversation was hidden, processing leaves it visible
(`hidden=false`).  (`hfresh` states that the autoincrement id is fresh, as a
database primary key always is.) -/
theorem first_contact_creates_chat_and_message (st : SysState)
    (uid text : String) (now : Int)
    (hfresh : ∀ c ∈ st.chats, c.id ≠ st.nextChatId)
    (htext : text ≠ "") (huid : uid ≠ "") :
    (get_chat_by_user_id st uid = none →
      (process_telegram_message st uid text none now).chats =
        st.chats ++ [⟨st.nextChatId, uid, extract_display_name uid,
          true, false, false, false, some now⟩] ∧
      (process_telegram_message st uid text none now).msgs =
        st.msgs ++ [⟨st.nextMsgId, st.nextChatId, text, "question"⟩]) ∧
    (∀ c0, get_chat_by_user_id st uid = some c0 →
      ∀ d ∈ (process_telegram_message st uid text none now).chats,
        d.id = c0.id → d.hidden = false) := by
  constructor
  · intro hfind
    unfold process_telegram_message
    rw [if_neg (fun hh => htext hh.1), if_neg huid]
    simp only [hfind]
    rw [create_message_question_eq]
    constructor
    · show ((st.chats ++ [_]).map _) = _
      rw [List.map_append]
      rw [list_map_id_of st.chats _ (fun x hx => by
        rw [if_neg]
        show ¬ x.id = st.nextChatId
        exact hfresh x hx)]
      simp [create_chat]
    · rfl
  · intro c0 hfind
    unfold process_telegram_message
    rw [if_neg (fun hh => htext hh.1), if_neg huid]
    simp only [hfind]
    rw [create_message_question_eq]
    intro d hd hdid
    simp only [saveChat, List.mem_map] at hd
    obtain ⟨x, hx, hfx⟩ := hd
    by_cases hxid : x.id = c0.id
    · rw [if_pos hxid] at hfx
      rw [← hfx]
      cases hch : c0.hidden <;> simp [hch]
    · rw [if_neg hxid] at hfx
      rw [← hfx] at hdid
      exact absurd hdid hxid

/-- Witness for C7 at the spec's own scenario: inbound "hello" from the new
external id "alice [1]" on the empty store — one conversation created with
`ai=true`, `waiting=false`, `hidden=false`, one client (`question`) message
with body "hello". -/
theorem first_contact_creates_chat_and_message_witness :
    (process_telegram_message initState "alice [1]" "hello" none 0).chats =
      initState.chats ++ [⟨initState.nextChatId, "alice [1]",
        extract_display_name "alice [1]", true, false, false, false, some 0⟩] ∧
    (process_telegram_message initState "alice [1]" "hello" none 0).msgs =
      initState.msgs ++ [⟨initState.nextMsgId, initState.nextChatId,
        "hello", "question"⟩] :=
  (first_contact_creates_chat_and_message initState "alice [1]" "hello" 0
    (by intro c hc; exact absurd hc (List.not_mem_nil c))
    (by decide) (by decide)).1 rfl

end MessageAgr
